import Mathlib

/-!
# Verification of the copra Coinbase Pro client library

A shallow embedding of `copra/rest.py` (authenticated-request signing,
request dispatch and error classification, cursor pagination) and
`copra/websocket.py` (channel validation and the feed client), with theorems
settling the specification's claims about them.

Conventions of the embedding:
* Python byte strings are `List Nat` (each entry one byte, < 256);
* Python `dict`s with string keys are association lists built by
  insertion (`pyDictInsert`), so a plain dict's lookup is exact-match on
  keys and later insertions of the same key overwrite earlier ones;
* `aiohttp`'s `CIMultiDict` of response headers is the raw wire list of
  header `(name, value)` pairs; its own lookup (`ciLookup`) is
  case-insensitive, while converting it with Python's `dict(...)`
  (`pyDictOf`) preserves each key's stored casing and yields an ordinary,
  case-sensitively keyed dict;
* fallible Python code returns `Except PyErr`, where `PyErr` distinguishes
  `ValueError` from the library's `APIRequestError`;
* a Python `float` is observed by this code only through its truthiness
  and its `str(...)` rendering, so it is embedded as that pair
  (`PyFloat`); `time.time()` is passed in explicitly as a `now` argument;
* the standard library's `hashlib.sha256`, `hmac` and `base64` are
  embedded as executable Lean functions implementing the same algorithms
  (FIPS 180-4 SHA-256, RFC 2104 HMAC, RFC 4648 base64).
-/

namespace Copra

/-- Python's `str.lower` restricted to ASCII, which is all the channel and
method names involved use. -/
def pyLower (s : String) : String :=
  String.mk (s.data.map Char.toLower)

/-- JSON string escaping as `json.dumps` performs it with default options:
backslash, double quote and ASCII control characters are escaped.  The
bodies this library serializes are plain ASCII key/value strings, for which
this is exact. -/
def jsonEscapeChar (c : Char) : String :=
  if c = '"' then "\\\""
  else if c = '\\' then "\\\\"
  else if c = '\n' then "\\n"
  else if c = '\t' then "\\t"
  else if c = '\r' then "\\r"
  else String.singleton c

/-- A JSON string literal: quoted and escaped. -/
def jsonString (s : String) : String :=
  "\"" ++ String.join (s.data.map jsonEscapeChar) ++ "\""

/-- `json.dumps` on a `dict` of `str` key/value pairs, default separators
`", "` and `": "`, keys in insertion order (Python 3.7+ dicts preserve it). -/
def jsonDumps (kvs : List (String × String)) : String :=
  "\x7b" ++ String.intercalate ", "
          (kvs.map (fun kv => jsonString kv.1 ++ ": " ++ jsonString kv.2)) ++ "\x7d"

/-- A Python str encoded with `str.encode('ascii')`: one byte per
character.  (On non-ASCII input Python raises; every string this library
signs is ASCII.) -/
def asciiBytes (s : String) : List Nat :=
  s.data.map Char.toNat

example : jsonDumps [("side", "buy")] = "\x7b\"side\": \"buy\"\x7d" := by rfl

/-! ## SHA-256 (FIPS 180-4), the algorithm behind `hashlib.sha256` -/

/-- 2^32, the modulus of SHA-256's 32-bit word arithmetic. -/
def M32 : Nat := 4294967296

/-- Rotates a 32-bit word right by n bit positions. -/
def rotr32 (n x : Nat) : Nat :=
  ((x >>> n) ||| (x <<< (32 - n))) % M32

/-- SHA-256 `Ch` function (bitwise NOT is XOR with `2^32 - 1`). -/
def shaCh (x y z : Nat) : Nat := ((x &&& y) ^^^ ((x ^^^ 4294967295) &&& z)) % M32

/-- SHA-256 `Maj` function. -/
def shaMaj (x y z : Nat) : Nat := ((x &&& y) ^^^ (x &&& z) ^^^ (y &&& z)) % M32

/-- SHA-256 `Σ0`. -/
def bigSigma0 (x : Nat) : Nat := (rotr32 2 x ^^^ rotr32 13 x ^^^ rotr32 22 x) % M32

/-- SHA-256 `Σ1`. -/
def bigSigma1 (x : Nat) : Nat := (rotr32 6 x ^^^ rotr32 11 x ^^^ rotr32 25 x) % M32

/-- SHA-256 `σ0`. -/
def smallSigma0 (x : Nat) : Nat := (rotr32 7 x ^^^ rotr32 18 x ^^^ (x >>> 3)) % M32

/-- SHA-256 `σ1`. -/
def smallSigma1 (x : Nat) : Nat := (rotr32 17 x ^^^ rotr32 19 x ^^^ (x >>> 10)) % M32

/-- The 64 SHA-256 round constants. -/
def shaK : List Nat :=
  [1116352408, 1899447441, 3049323471, 3921009573, 961987163,
   1508970993, 2453635748, 2870763221, 3624381080, 310598401,
   607225278, 1426881987, 1925078388, 2162078206, 2614888103,
   3248222580, 3835390401, 4022224774, 264347078, 604807628,
   770255983, 1249150122, 1555081692, 1996064986, 2554220882,
   2821834349, 2952996808, 3210313671, 3336571891, 3584528711,
   113926993, 338241895, 666307205, 773529912, 1294757372,
   1396182291, 1695183700, 1986661051, 2177026350, 2456956037,
   2730485921, 2820302411, 3259730800, 3345764771, 3516065817,
   3600352804, 4094571909, 275423344, 430227734, 506948616,
   659060556, 883997877, 958139571, 1322822218, 1537002063,
   1747873779, 1955562222, 2024104815, 2227730452, 2361852424,
   2428436474, 2756734187, 3204031479, 3329325298]

/-- The SHA-256 initial hash state. -/
def shaH0 : List Nat :=
  [1779033703, 3144134277, 1013904242, 2773480762,
   1359893119, 2600822924, 528734635, 1541459225]

/-- A natural number as 8 big-endian bytes (the length field of padding). -/
def be64 (n : Nat) : List Nat :=
  (List.range 8).map (fun i => (n >>> (8 * (7 - i))) % 256)

/-- SHA-256 message padding: append `0x80`, zero bytes to 56 mod 64, then
the bit length as 8 big-endian bytes. -/
def sha256Pad (msg : List Nat) : List Nat :=
  let L := msg.length
  let k := (55 + 64 - (L % 64)) % 64
  msg ++ [0x80] ++ List.replicate k 0 ++ be64 (8 * L)

/-- Groups bytes into big-endian 32-bit words. -/
def bytesToWords : List Nat → List Nat
  | b0 :: b1 :: b2 :: b3 :: rest =>
      (((b0 * 256 + b1) * 256 + b2) * 256 + b3) :: bytesToWords rest
  | _ => []

/-- Splits a word list into 16-word blocks (fueled by the list length). -/
def toBlocksGo : Nat → List Nat → List (List Nat)
  | 0, _ => []
  | _, [] => []
  | Nat.succ fuel, ws => ws.take 16 :: toBlocksGo fuel (ws.drop 16)

/-- Splits a word list into 16-word blocks. -/
def toBlocks (ws : List Nat) : List (List Nat) := toBlocksGo ws.length ws

/-- Extends a 16-word block by one scheduled word per step. -/
def sha256ScheduleGo : Nat → List Nat → List Nat
  | 0, acc => acc
  | Nat.succ fuel, acc =>
      let i := acc.length
      let w := (smallSigma1 (acc.getD (i - 2) 0) + acc.getD (i - 7) 0 +
                smallSigma0 (acc.getD (i - 15) 0) + acc.getD (i - 16) 0) % M32
      sha256ScheduleGo fuel (acc ++ [w])

/-- The 64-word SHA-256 message schedule of a block. -/
def sha256Schedule (block : List Nat) : List Nat := sha256ScheduleGo 48 block

/-- One SHA-256 round on the working state `[a,b,c,d,e,f,g,h]`. -/
def sha256Round (st : List Nat) (kw : Nat × Nat) : List Nat :=
  match st with
  | [a, b, c, d, e, f, g, h] =>
      let t1 := (h + bigSigma1 e + shaCh e f g + kw.1 + kw.2) % M32
      let t2 := (bigSigma0 a + shaMaj a b c) % M32
      [(t1 + t2) % M32, a, b, c, (d + t1) % M32, e, f, g]
  | st => st

/-- SHA-256 compression of one block into the chaining state. -/
def sha256Compress (st : List Nat) (block : List Nat) : List Nat :=
  let fin := (shaK.zip (sha256Schedule block)).foldl sha256Round st
  (st.zip fin).map (fun p => (p.1 + p.2) % M32)

/-- The SHA-256 digest (32 bytes) of a byte string: what
`hashlib.sha256(msg).digest()` computes. -/
def sha256Bytes (msg : List Nat) : List Nat :=
  let st := (toBlocks (bytesToWords (sha256Pad msg))).foldl sha256Compress shaH0
  st.flatMap (fun w => [(w >>> 24) % 256, (w >>> 16) % 256, (w >>> 8) % 256, w % 256])

/-- HMAC-SHA256 (RFC 2104): what `hmac.new(key, msg, hashlib.sha256)`
computes.  Keys longer than the 64-byte block are first hashed; the key is
zero-padded to 64 bytes and combined with the ipad/opad constants. -/
def hmacSha256 (key msg : List Nat) : List Nat :=
  let k0 := if key.length > 64 then sha256Bytes key else key
  let k := k0 ++ List.replicate (64 - k0.length) 0
  sha256Bytes ((k.map (fun b => b ^^^ 0x5c)) ++
    sha256Bytes ((k.map (fun b => b ^^^ 0x36)) ++ msg))

/-! ## Base64 (RFC 4648), the algorithm behind `base64.b64encode/b64decode` -/

/-- The base64 alphabet. -/
def b64Alphabet : List Char :=
  "ABCDEFGHIJKLMNOPQRSTUVWXYZabcdefghijklmnopqrstuvwxyz0123456789+/".data

/-- The base64 character of a 6-bit value. -/
def b64CharOf (n : Nat) : Char := b64Alphabet.getD n 'A'

/-- Base64-encodes bytes three at a time, padding with `=`. -/
def b64EncodeGo : List Nat → List Char
  | b0 :: b1 :: b2 :: rest =>
      let n := (b0 * 256 + b1) * 256 + b2
      b64CharOf ((n >>> 18) % 64) :: b64CharOf ((n >>> 12) % 64) ::
        b64CharOf ((n >>> 6) % 64) :: b64CharOf (n % 64) :: b64EncodeGo rest
  | [b0, b1] =>
      let n := (b0 * 256 + b1) * 256
      [b64CharOf ((n >>> 18) % 64), b64CharOf ((n >>> 12) % 64),
       b64CharOf ((n >>> 6) % 64), '=']
  | [b0] =>
      let n := b0 * 256 * 256
      [b64CharOf ((n >>> 18) % 64), b64CharOf ((n >>> 12) % 64), '=', '=']
  | [] => []

/-- `base64.b64encode(bs).decode('utf-8')`. -/
def base64Encode (bs : List Nat) : String := String.mk (b64EncodeGo bs)

/-- The 6-bit value of a base64 alphabet character, `none` otherwise. -/
def b64Value (c : Char) : Option Nat := b64Alphabet.indexOf? c

/-- Reassembles bytes from a list of 6-bit values. -/
def b64DecodeGo : List Nat → List Nat
  | s0 :: s1 :: s2 :: s3 :: rest =>
      let n := ((s0 * 64 + s1) * 64 + s2) * 64 + s3
      (n >>> 16) % 256 :: (n >>> 8) % 256 :: n % 256 :: b64DecodeGo rest
  | [s0, s1, s2] =>
      let n := (s0 * 64 + s1) * 64 + s2
      [(n >>> 10) % 256, (n >>> 2) % 256]
  | [s0, s1] => [(s0 * 64 + s1) >>> 4 % 256]
  | _ => []

/-- `base64.b64decode(s)` on well-formed input: non-alphabet characters
(including the `=` padding) are discarded, then sextets are packed into
bytes. -/
def base64Decode (s : String) : List Nat :=
  b64DecodeGo (s.data.filterMap b64Value)

/-! ## Python values as `copra/rest.py` observes them -/

/-- A Python `float`, observed by this code only through its truthiness
(`isZero`, since `if not timestamp:` tests it) and its `str(...)`
rendering.  `⟨"1000.0", false⟩` models the float `1000.0`. -/
structure PyFloat where
  str : String
  isZero : Bool

/-- A parsed JSON value, as `await response.json()` produces one. -/
inductive PyObj : Type
  | str : String → PyObj
  | num : Int → PyObj
  | bool : Bool → PyObj
  | list : List PyObj → PyObj
  | dict : List (String × PyObj) → PyObj

/-- Python `obj['key']` on a parsed JSON object, `none` when the key is
missing or the value is not an object. -/
def PyObj.dictGet : PyObj → String → Option PyObj
  | .dict kvs, k => (kvs.find? (fun kv => kv.1 == k)).map (·.2)
  | _, _ => none

/-- An HTTP response as `aiohttp` hands it to the client: the status code,
the header `(name, value)` pairs in wire order and wire casing (exposed by
aiohttp as a case-insensitive `CIMultiDict`), and the JSON-parsed body. -/
structure Response where
  status : Nat
  headers : List (String × String)
  body : PyObj

/-- `copra.rest.APIRequestError`: the server's message composed with the
status, plus the raw response object for introspection. -/
structure APIRequestError where
  message : String
  response : Response

/-- The exceptions the embedded code raises. -/
inductive PyErr : Type
  | valueError : String → PyErr
  | apiRequestError : APIRequestError → PyErr
  | keyError : String → PyErr
  | typeError : String → PyErr

/-- Lookup in a `CIMultiDict` of headers: first pair whose name matches
case-insensitively (HTTP header semantics, what `resp.headers` itself
offers before the client converts it with `dict(...)`). -/
def ciLookup (hs : List (String × String)) (k : String) : Option String :=
  (hs.find? (fun kv => pyLower kv.1 == pyLower k)).map (·.2)

/-- One insertion into a plain Python `dict`: an existing key's value is
overwritten in place, a new key is appended. -/
def pyDictInsert (d : List (String × String)) (k v : String) :
    List (String × String) :=
  if d.any (fun kv => kv.1 == k) then
    d.map (fun kv => if kv.1 == k then (k, v) else kv)
  else d ++ [(k, v)]

/-- Python `dict(pairs)`: successive insertion.  Applied to a
`CIMultiDict` this keeps each key's stored casing and makes every later
lookup an exact string match — the case-insensitivity of the multidict is
not carried over. -/
def pyDictOf (pairs : List (String × String)) : List (String × String) :=
  pairs.foldl (fun d kv => pyDictInsert d kv.1 kv.2) []

/-- Python `d.get(k, None)` on a plain dict: exact-match key lookup. -/
def pyDictGet (d : List (String × String)) (k : String) : Option String :=
  (d.find? (fun kv => kv.1 == k)).map (·.2)

/-! ## The REST client (`copra/rest.py`) -/

/-- The module-level production REST URL. -/
def URL : String := "https://api.pro.coinbase.com"

/-- The module-level `USER_AGENT` string.  Its exact value is assembled
from the Python and copra versions of the running environment and plays no
role in any claim; a representative value is fixed here. -/
def USER_AGENT : String := "Python/3.6.5 copra/0.3.0"

/-- The module-level default `HEADERS` dict. -/
def HEADERS : List (String × String) := [("USER-AGENT", USER_AGENT)]

/-- The REST client state after construction: base url, session auth flag
and credentials (rest.py 206-214). -/
structure RestClient where
  url : String
  auth : Bool
  key : String
  secret : String
  passphrase : String

/-- `Client.__init__` (rest.py 184-216): stores url and credentials, but
raises `ValueError` when `auth` is requested without all three credential
strings (Python truthiness: the empty string counts as missing). -/
def Client.init (url : String) (auth : Bool) (key secret passphrase : String) :
    Except PyErr RestClient :=
  if auth ∧ ¬(key ≠ "" ∧ secret ≠ "" ∧ passphrase ≠ "") then
    .error (.valueError "auth requires key, secret, and passphrase")
  else
    .ok ⟨url, auth, key, secret, passphrase⟩

/-- `Client.get_auth_headers` (rest.py 219-262).  `body` is `none` when
Python receives `None` (the `{}` default is `some []`); `timestamp` is
`none` when not supplied; `now` stands for `time.time()`, which the code
falls back to whenever the `timestamp` argument is falsy — i.e. absent
*or* a zero float.  The canonical message is
`str(timestamp) + method + path + body` as ASCII bytes; the secret is
base64-decoded before use as the HMAC-SHA256 key and the digest is
base64-encoded into `CB-ACCESS-SIGN`. -/
def Client.get_auth_headers (c : RestClient) (path : String)
    (method : String) (body : Option (List (String × String)))
    (timestamp : Option PyFloat) (now : PyFloat) :
    Except PyErr (List (String × String)) :=
  if ¬c.auth then
    .error (.valueError "client is not properly configured for authorization")
  else
    let bodyStr :=
      match body with
      | none => ""
      | some kvs => if kvs.isEmpty then "" else jsonDumps kvs
    let ts : PyFloat :=
      match timestamp with
      | none => now
      | some t => if t.isZero then now else t
    let message := ts.str ++ method ++ path ++ bodyStr
    let signature_b64 :=
      base64Encode (hmacSha256 (base64Decode c.secret) (asciiBytes message))
    .ok [("USER-AGENT", USER_AGENT),
         ("Content-Type", "Application/JSON"),
         ("CB-ACCESS-SIGN", signature_b64),
         ("CB-ACCESS-TIMESTAMP", ts.str),
         ("CB-ACCESS-KEY", c.key),
         ("CB-ACCESS-PASSPHRASE", c.passphrase)]

/-- `Client.handle_error` (rest.py 265-276): reads the JSON error body,
composes `body['message'] + ' [<status>]'` and raises `APIRequestError`
carrying the message and the raw response.  A body that is not an object
with a string `message` raises the corresponding Python error instead. -/
def Client.handle_error (resp : Response) : PyErr :=
  match resp.body with
  | .dict kvs =>
      match ((kvs.find? (fun kv => kv.1 == "message")).map (·.2) : Option PyObj) with
      | some (.str m) =>
          .apiRequestError ⟨m ++ " [" ++ toString resp.status ++ "]", resp⟩
      | some _ => .typeError "can only concatenate str to str"
      | none => .keyError "message"
  | _ => .typeError "error body is not an object"

/-- `BaseClient._request` (rest.py 81-101) as specialized by `Client`:
a status of 400 or more is routed to `Client.handle_error`, which always
raises, so the caller never receives such a response. -/
def Client.request (resp : Response) : Except PyErr Response :=
  if 400 ≤ resp.status then .error (Client.handle_error resp)
  else .ok resp

/-- The response-handling tail shared by `Client.get`, `Client.post` and
`Client.delete` (rest.py 298-302, 324-328, 350-355): status
classification, then `(dict(resp.headers), await resp.json())` — the
header multidict is converted to a plain dict. -/
def Client.handle_response (resp : Response) :
    Except PyErr ((List (String × String)) × PyObj) :=
  match Client.request resp with
  | .error e => .error e
  | .ok r => .ok (pyDictOf r.headers, r.body)

/-- A request as handed to the network layer: endpoint path, query
parameters (URL-encoded and appended at the wire), and the headers
attached. -/
structure Request where
  path : String
  params : List (String × String)
  headers : List (String × String)

/-- `Client.get` (rest.py 305-328) over a network `net`, instrumented with
the list of requests actually handed to the network: auth headers are
computed first when requested (and can raise before any request is
issued), then the response is dispatched and its headers dict-converted. -/
def Client.get_via (c : RestClient) (path : String)
    (params : List (String × String)) (auth : Bool) (now : PyFloat)
    (net : Request → Response) :
    Except PyErr ((List (String × String)) × PyObj) × List Request :=
  match (if auth then Client.get_auth_headers c path "GET" none none now
         else .ok HEADERS) with
  | .error e => (.error e, [])
  | .ok req_headers =>
      let req : Request := ⟨path, params, req_headers⟩
      (Client.handle_response (net req), [req])

/-- What `BaseClient.post` transmits (rest.py 158): the body dict is
serialized with its own `json.dumps` call, a falsy `data` becoming the
empty string. -/

structure SentRequest where
  url : String
  body : String
  headers : List (String × String)

/-- `Client.post` (rest.py 331-355) composed with `BaseClient.post`
(rest.py 144-159) up to the transmission: the auth headers sign
`json.dumps(data)` inside `get_auth_headers`, and the wire body is then
produced by a second, independent `json.dumps(data)` in the base class. -/
def Client.post_send (c : RestClient) (path : String)
    (data : Option (List (String × String))) (auth : Bool) (now : PyFloat) :
    Except PyErr SentRequest :=
  match (if auth then Client.get_auth_headers c path "POST" data none now
         else .ok HEADERS) with
  | .error e => .error e
  | .ok req_headers =>
      let wire :=
        match data with
        | none => ""
        | some kvs => if kvs.isEmpty then "" else jsonDumps kvs
      .ok ⟨c.url ++ path, wire, req_headers⟩

/-! ## The paginated endpoint methods

Cursors are `Option String`: `some` models a supplied (truthy) cursor,
`none` the `None` default — the source tests them by Python truthiness
(`if before and after:`, `if before:`).  Each method is instrumented with
the list of requests it hands to the network `net`, so "no request was
transmitted" is the statement that this list is empty. -/

/-- The `ValueError` every paginated method raises when both cursors are
supplied. -/
def cursorError : PyErr :=
  .valueError "before and after cannot both be provided."

/-- Shared result/request-log shape of the paginated methods. -/
def pageResult :=
  Except PyErr (PyObj × Option String × Option String) × List Request

/-- The shared tail of every paginated method (rest.py 620-622 etc.):
dispatch the request and read the two cursor headers out of the converted
header dict with `.get(..., None)`. -/
def pageTail (c : RestClient) (path : String)
    (params : List (String × String)) (auth : Bool) (now : PyFloat)
    (net : Request → Response) : pageResult :=
  match Client.get_via c path params auth now net with
  | (.error e, reqs) => (.error e, reqs)
  | (.ok (headers, body), reqs) =>
      (.ok (body, pyDictGet headers "cb-before", pyDictGet headers "cb-after"),
       reqs)

/-- Appends the `before`/`after` cursor parameters when supplied, as each
method's `if before: params.update(...)` lines do. -/
def cursorParams (params : List (String × String))
    (before after : Option String) : List (String × String) :=
  let params := match before with
    | some b => params ++ [("before", b)]
    | none => params
  match after with
  | some a => params ++ [("after", a)]
  | none => params

/-- `Client.trades` (rest.py 540-622): public endpoint, cursor check
before anything else, then one GET of `/products/<id>/trades`. -/
def Client.trades (c : RestClient) (product_id : String) (limit : Nat)
    (before after : Option String) (now : PyFloat)
    (net : Request → Response) : pageResult :=
  if before.isSome ∧ after.isSome then (.error cursorError, [])
  else
    pageTail c ("/products/" ++ product_id ++ "/trades")
      (cursorParams [("limit", toString limit)] before after) false now net

/-- `Client.account_history` (rest.py 868-973): authenticated, cursor
check first, then one GET of `/accounts/<id>/ledger`. -/
def Client.account_history (c : RestClient) (account_id : String)
    (limit : Nat) (before after : Option String) (now : PyFloat)
    (net : Request → Response) : pageResult :=
  if before.isSome ∧ after.isSome then (.error cursorError, [])
  else
    pageTail c ("/accounts/" ++ account_id ++ "/ledger")
      (cursorParams [("limit", toString limit)] before after) true now net

/-- `Client.holds` (rest.py 976-1068): authenticated, cursor check first,
then one GET of `/accounts/<id>/holds`. -/
def Client.holds (c : RestClient) (account_id : String) (limit : Nat)
    (before after : Option String) (now : PyFloat)
    (net : Request → Response) : pageResult :=
  if before.isSome ∧ after.isSome then (.error cursorError, [])
  else
    pageTail c ("/accounts/" ++ account_id ++ "/holds")
      (cursorParams [("limit", toString limit)] before after) true now net

/-- The status values `Client.orders` accepts. -/
def validOrderStatuses : List String := ["active", "all", "open", "pending"]

/-- `Client.orders` (rest.py 1322-1447): authenticated; the cursor check
comes first, then each status value is validated against the fixed
enumeration (a lone status string is a singleton list, the `None` default
the empty list), then one GET of `/orders`. -/
def Client.orders (c : RestClient) (status : List String)
    (product_id : Option String) (limit : Nat)
    (before after : Option String) (now : PyFloat)
    (net : Request → Response) : pageResult :=
  if before.isSome ∧ after.isSome then (.error cursorError, [])
  else
    match status.find? (fun v => ¬validOrderStatuses.contains v) with
    | some v => (.error (.valueError ("Invalid status: " ++ v)), [])
    | none =>
        let params := cursorParams [("limit", toString limit)] before after
        let params := params ++ status.map (fun v => ("status", v))
        let params := match product_id with
          | some pid => params ++ [("product_id", pid)]
          | none => params
        pageTail c "/orders" params true now net

/-- `Client.fills` (rest.py 1495-1577): authenticated; the cursor check
comes first, then the order-id/product-id exclusivity checks (the `''`
defaults are falsy), then one GET of `/fills`. -/
def Client.fills (c : RestClient) (order_id product_id : String)
    (limit : Nat) (before after : Option String) (now : PyFloat)
    (net : Request → Response) : pageResult :=
  if before.isSome ∧ after.isSome then (.error cursorError, [])
  else if order_id = "" ∧ product_id = "" then
    (.error (.valueError "Either order_id or product_id must be defined."), [])
  else if order_id ≠ "" ∧ product_id ≠ "" then
    (.error (.valueError "order_id or product_id cannot both be sent."), [])
  else
    let params := cursorParams [("limit", toString limit)] before after
    let params := if order_id ≠ "" then params ++ [("order_id", order_id)]
                  else params
    let params := if product_id ≠ "" then params ++ [("product_id", product_id)]
                  else params
    pageTail c "/fills" params true now net

/-! ## The WebSocket client (`copra/websocket.py`) -/

/-- The module-level production feed URL. -/
def FEED_URL : String := "wss://ws-feed.gdax.com"

/-- The channel names `Channel.__init__` accepts (websocket.py 50-51). -/
def validChannelNames : List String :=
  ["heartbeat", "ticker", "level2", "full", "matches", "user"]

/-- A WebSocket channel: the (lowercased) name and the set of product ids
(`set(product_ids)` in the source). -/
structure Channel where
  name : String
  product_ids : Finset String
  deriving DecidableEq

/-- `Channel.__init__` (websocket.py 35-59): lowercases the name, checks
it against the fixed enumeration, rejects a falsy (empty) product id
argument, and stores the ids as a set.  A single id string is modelled as
a singleton list — a non-empty Python str is truthy and gets wrapped into
a list by the source. -/
def Channel.init (name : String) (product_ids : List String) :
    Except PyErr Channel :=
  let nm := pyLower name
  if nm ∉ validChannelNames then
    .error (.valueError ("invalid name " ++ name))
  else if product_ids = [] then
    .error (.valueError "must include at least one product id")
  else
    .ok ⟨nm, product_ids.toFinset⟩

/-- The feed client state after `Client.__init__` (websocket.py 107-129):
the channels passed in are kept verbatim as the `_initial_channels` list
(a lone Channel is wrapped into a singleton list), and the `channels`
registry dict is initialized empty — nothing is ever merged into it. -/
structure WsClient where
  initial_channels : List Channel
  channels : List (String × Channel)
  feed_url : String
  name : String
  deriving DecidableEq

/-- `Client.__init__` of the feed client (websocket.py 107-129). -/
def WsClient.init (channels : List Channel)
    (feed_url : String := FEED_URL)
    (name : String := "WebSocket Client") : WsClient :=
  ⟨channels, [], feed_url, name⟩

/-- `Channel.as_dict` (websocket.py 64-70), the shape a subscription
control frame would carry. -/
def Channel.as_dict (ch : Channel) : List (String × PyObj) :=
  [("name", .str ch.name),
   ("product_ids", .list (ch.product_ids.sort (· ≤ ·) |>.map PyObj.str))]

/-- The control frames `Client.on_open` transmits on handshake completion
(websocket.py 147-153): the method's body is empty — only a docstring —
so nothing is serialized and nothing is sent. -/
def WsClient.on_open_frames (_c : WsClient) : List PyObj := []

/-- `ClientProtocol.onOpen` (websocket.py 81-86) forwards to the factory's
`on_open`, so the frames transmitted when the opening handshake completes
are exactly those of `Client.on_open`. -/
def ClientProtocol.onOpen_frames (c : WsClient) : List PyObj :=
  WsClient.on_open_frames c

/-! ## Specification-side definitions

These follow the words of the specification (not the source) and are
compared against the source-derived definitions in refinement claims. -/

/-- Modelled from the spec: the body serialization the signature is
claimed to cover — `json.dumps(body)` for a non-empty body and the empty
string otherwise (an absent body counts as empty). -/
def specSerializedBody (body : Option (List (String × String))) : String :=
  match body with
  | none => ""
  | some kvs => if kvs.isEmpty then "" else jsonDumps kvs

/-- The named header of a `get_auth_headers` result, `none` when the call
raised instead. -/
def authHeaderLookup (r : Except PyErr (List (String × String)))
    (k : String) : Option String :=
  match r with
  | .ok hs => List.lookup k hs
  | .error _ => none

/-- The lookup of a header name on the headers value a successful
dispatch returns to the caller, `none` when the call raised. -/
def resultHeaderLookup (r : Except PyErr ((List (String × String)) × PyObj))
    (k : String) : Option String :=
  match r with
  | .ok p => pyDictGet p.1 k
  | .error _ => none

/-! ## Helper lemmas on the dict conversion -/

lemma pyDictInsert_of_not_mem (d : List (String × String)) (k v : String)
    (h : ∀ kv ∈ d, kv.1 ≠ k) : pyDictInsert d k v = d ++ [(k, v)] := by
  have hany : d.any (fun kv => kv.1 == k) = false := by
    rw [List.any_eq_false]
    intro kv hkv
    simpa using h kv hkv
  simp [pyDictInsert, hany]

lemma foldl_pyDictInsert_append (hs : List (String × String)) :
    ∀ acc : List (String × String),
      (∀ kv ∈ hs, ∀ kv2 ∈ acc, kv.1 ≠ kv2.1) →
      (hs.map Prod.fst).Nodup →
      hs.foldl (fun d kv => pyDictInsert d kv.1 kv.2) acc = acc ++ hs := by
  induction hs with
  | nil => intro acc _ _; simp
  | cons kv t ih =>
      intro acc hdisj hnodup
      have hstep : pyDictInsert acc kv.1 kv.2 = acc ++ [(kv.1, kv.2)] :=
        pyDictInsert_of_not_mem acc kv.1 kv.2 (fun kv2 hkv2 =>
          (hdisj kv (by simp) kv2 hkv2).symm)
      rw [List.map_cons, List.nodup_cons] at hnodup
      obtain ⟨hknotin, hnodup2⟩ := hnodup
      have hdisj2 : ∀ kv2 ∈ t, ∀ kv3 ∈ acc ++ [(kv.1, kv.2)], kv2.1 ≠ kv3.1 := by
        intro kv2 hkv2 kv3 hkv3
        rcases List.mem_append.mp hkv3 with hin | hin
        · exact hdisj kv2 (by simp [hkv2]) kv3 hin
        · have hkv3eq : kv3 = (kv.1, kv.2) := by simpa using hin
          subst hkv3eq
          intro hcontr
          apply hknotin
          simp only at hcontr
          rw [← hcontr]
          exact List.mem_map_of_mem Prod.fst hkv2
      calc ((kv :: t).foldl (fun d kv2 => pyDictInsert d kv2.1 kv2.2) acc)
          = t.foldl (fun d kv2 => pyDictInsert d kv2.1 kv2.2)
              (pyDictInsert acc kv.1 kv.2) := rfl
        _ = (acc ++ [(kv.1, kv.2)]) ++ t := by
              rw [hstep]; exact ih _ hdisj2 hnodup2
        _ = acc ++ kv :: t := by simp

/-- Converting a header multidict whose names are pairwise distinct with
`dict(...)` keeps the pair list unchanged. -/
lemma pyDictOf_eq_self (hs : List (String × String))
    (hnodup : (hs.map Prod.fst).Nodup) : pyDictOf hs = hs := by
  simpa using foldl_pyDictInsert_append hs [] (by simp) hnodup

/-- Plain-dict lookup agrees with first-match association lookup. -/
lemma pyDictGet_eq_lookup (d : List (String × String)) (k : String) :
    pyDictGet d k = List.lookup k d := by
  induction d with
  | nil => rfl
  | cons kv t ih =>
      by_cases h : kv.1 = k
      · simp [pyDictGet, List.find?, List.lookup, h]
      · have h2 : (kv.1 == k) = false := by simpa using h
        have h3 : (k == kv.1) = false := by simpa using (Ne.symm h)
        simp only [pyDictGet, List.find?, List.lookup, h2, h3]
        exact ih

/-- First-match association lookup on pairwise-distinct keys finds a value
exactly when the pair with that exact key is present. -/
lemma lookup_some_iff_mem (hs : List (String × String)) (k v : String)
    (hnodup : (hs.map Prod.fst).Nodup) :
    List.lookup k hs = some v ↔ (k, v) ∈ hs := by
  induction hs with
  | nil => simp
  | cons kv t ih =>
      obtain ⟨k1, v1⟩ := kv
      rw [List.map_cons, List.nodup_cons] at hnodup
      obtain ⟨hknotin, hnodup2⟩ := hnodup
      by_cases h : k = k1
      · subst h
        have hnot : (k, v) ∉ t := fun hmem =>
          hknotin (by simpa using List.mem_map_of_mem Prod.fst hmem)
        simp [List.lookup, hnot, eq_comm]
      · have h2 : (k == k1) = false := by simpa using h
        simp only [List.lookup, h2, List.mem_cons, ih hnodup2]
        constructor
        · exact Or.inr
        · rintro (hv | hv)
          · exact absurd (by simpa using congrArg Prod.fst hv) h
          · exact hv

/-- On pairwise-distinct keys, dict lookup finds a value exactly when the
pair with that exact key is present. -/
lemma pyDictGet_some_iff_mem (hs : List (String × String)) (k v : String)
    (hnodup : (hs.map Prod.fst).Nodup) :
    pyDictGet hs k = some v ↔ (k, v) ∈ hs := by
  rw [pyDictGet_eq_lookup]
  exact lookup_some_iff_mem hs k v hnodup

/-! ## Concrete instances shared by the theorems below -/

/-- A representative authenticated client: production url, full
credentials, base64-encoded secret. -/
def sampleClient : RestClient := ⟨URL, true, "key", "c2VjcmV0", "pass"⟩

/-- A representative 404 error response with a structured error body. -/
def resp404 : Response :=
  ⟨404, [("Content-Type", "application/json")],
   .dict [("message", .str "Not Found")]⟩

/-! ## The claims -/

/-- C1 (amended): for every client constructed with `auth=True` and full
credentials, and every path, method, body dict and *truthy (nonzero)*
supplied timestamp, `get_auth_headers` returns a `CB-ACCESS-SIGN` header
equal to `base64(HMAC-SHA256(base64-decode(secret), ascii(str(timestamp)
++ method ++ path ++ serialized-body)))` — where `serialized-body` is
`json.dumps(body)` for a non-empty body and the empty string otherwise —
and a `CB-ACCESS-TIMESTAMP` header equal to `str(timestamp)`.  (The
restriction to nonzero timestamps is forced: `if not timestamp:` treats a
supplied `0.0` as absent and substitutes `time.time()`.) -/
theorem C1_auth_headers_sign_and_timestamp
    (url key secret passphrase path method : String)
    (body : Option (List (String × String))) (t now : PyFloat)
    (c : RestClient)
    (hinit : Client.init url true key secret passphrase = Except.ok c)
    (ht : t.isZero = false) :
    Client.get_auth_headers c path method body (some t) now =
      Except.ok
        [("USER-AGENT", USER_AGENT),
         ("Content-Type", "Application/JSON"),
         ("CB-ACCESS-SIGN",
           base64Encode (hmacSha256 (base64Decode secret)
             (asciiBytes (t.str ++ method ++ path ++ specSerializedBody body)))),
         ("CB-ACCESS-TIMESTAMP", t.str),
         ("CB-ACCESS-KEY", key),
         ("CB-ACCESS-PASSPHRASE", passphrase)] := by
  unfold Client.init at hinit
  split at hinit
  · exact Except.noConfusion hinit
  · cases hinit
    simp [Client.get_auth_headers, specSerializedBody, ht]

/-- C1 counterexample: the claim quantifies over *every* supplied
timestamp, but a supplied `0.0` is falsy, so `if not timestamp:` replaces
it with `time.time()` (here `1539968279.5`) and the returned
`CB-ACCESS-TIMESTAMP` header is not `str(timestamp) = "0.0"`. -/
theorem C1_counterexample :
    Client.init URL true "key" "c2VjcmV0" "pass" =
      Except.ok ⟨URL, true, "key", "c2VjcmV0", "pass"⟩ ∧
    authHeaderLookup
      (Client.get_auth_headers ⟨URL, true, "key", "c2VjcmV0", "pass"⟩
        "/orders" "GET" none (some ⟨"0.0", true⟩) ⟨"1539968279.5", false⟩)
      "CB-ACCESS-TIMESTAMP" = some "1539968279.5" ∧
    ("1539968279.5" : String) ≠ "0.0" := by
  refine ⟨rfl, rfl, by decide⟩

/-- C1 witness: at `path="/orders"`, `method="POST"`,
`body={"side":"buy"}`, `timestamp=1000.0`, the hashed ASCII bytes are
exactly the claimed canonical message. -/
theorem C1_witness :
    Client.init URL true "key" "c2VjcmV0" "pass" =
      Except.ok ⟨URL, true, "key", "c2VjcmV0", "pass"⟩ ∧
    (PyFloat.mk "1000.0" false).isZero = false ∧
    Client.get_auth_headers ⟨URL, true, "key", "c2VjcmV0", "pass"⟩
        "/orders" "POST" (some [("side", "buy")])
        (some ⟨"1000.0", false⟩) ⟨"9.9", false⟩ =
      Except.ok
        [("USER-AGENT", USER_AGENT),
         ("Content-Type", "Application/JSON"),
         ("CB-ACCESS-SIGN",
           base64Encode (hmacSha256 (base64Decode "c2VjcmV0")
             (asciiBytes "1000.0POST/orders\x7b\"side\": \"buy\"\x7d"))),
         ("CB-ACCESS-TIMESTAMP", "1000.0"),
         ("CB-ACCESS-KEY", "key"),
         ("CB-ACCESS-PASSPHRASE", "pass")] := by
  refine ⟨rfl, rfl, ?_⟩
  have h := C1_auth_headers_sign_and_timestamp URL "key" "c2VjcmV0" "pass"
    "/orders" "POST" (some [("side", "buy")]) ⟨"1000.0", false⟩ ⟨"9.9", false⟩
    ⟨URL, true, "key", "c2VjcmV0", "pass"⟩ rfl rfl
  exact h.trans (by rfl)

/-- C2: for every authenticated POST (`Client.post` with `auth=True` on an
auth-configured client), the body string covered by the signature is
byte-for-byte the body string transmitted by `BaseClient.post`: the
`CB-ACCESS-SIGN` header of the sent request is the HMAC of
`timestamp ++ "POST" ++ path ++ sent-body`, even though the signature's
body string and the wire body come from two separate `json.dumps` calls
on the same dict. -/
theorem C2_post_signature_covers_sent_body (c : RestClient) (path : String)
    (data : Option (List (String × String))) (now : PyFloat)
    (sent : SentRequest)
    (hauth : c.auth = true)
    (hsend : Client.post_send c path data true now = Except.ok sent) :
    List.lookup "CB-ACCESS-SIGN" sent.headers =
      some (base64Encode (hmacSha256 (base64Decode c.secret)
        (asciiBytes (now.str ++ "POST" ++ path ++ sent.body)))) := by
  simp only [Client.post_send, Client.get_auth_headers, hauth, not_true,
    if_true, if_false] at hsend
  cases hsend
  rfl

/-- C2 witness: a concrete authenticated POST of `{"side": "buy"}`. -/
theorem C2_witness :
    sampleClient.auth = true ∧
    ∃ sent, Client.post_send sampleClient "/orders" (some [("side", "buy")])
        true ⟨"1000.0", false⟩ = Except.ok sent ∧
      List.lookup "CB-ACCESS-SIGN" sent.headers =
        some (base64Encode (hmacSha256 (base64Decode sampleClient.secret)
          (asciiBytes ("1000.0" ++ "POST" ++ "/orders" ++ sent.body)))) := by
  refine ⟨rfl, _, rfl, ?_⟩
  exact C2_post_signature_covers_sent_body sampleClient "/orders"
    (some [("side", "buy")]) ⟨"1000.0", false⟩ _ rfl rfl

/-- C3: every response with status `>= 400` whose structured error body
has a `message` field makes the dispatch raise `APIRequestError` before
the caller sees a result; the error's string representation is the
server's message followed by `" [<status>]"` and its `response` attribute
is the raw response. -/
theorem C3_api_error_surfaced (resp : Response) (m : String)
    (h400 : 400 ≤ resp.status)
    (hmsg : resp.body.dictGet "message" = some (.str m)) :
    Client.handle_response resp =
      Except.error (.apiRequestError
        ⟨m ++ " [" ++ toString resp.status ++ "]", resp⟩) := by
  obtain ⟨st, hs, body⟩ := resp
  cases body with
  | dict kvs =>
      simp only [PyObj.dictGet] at hmsg
      simp [Client.handle_response, Client.request, Client.handle_error,
        h400, hmsg]
  | str s => simp [PyObj.dictGet] at hmsg
  | num n => simp [PyObj.dictGet] at hmsg
  | bool b => simp [PyObj.dictGet] at hmsg
  | list xs => simp [PyObj.dictGet] at hmsg

/-- C3 witness: status 404 with body `{"message": "Not Found"}` surfaces
an `APIRequestError` whose text is `"Not Found [404]"` — the message
followed by `" [404]"`, so ending in `"[404]"` — and whose attached
response is the raw 404 response. -/
theorem C3_witness :
    400 ≤ resp404.status ∧
    resp404.body.dictGet "message" = some (.str "Not Found") ∧
    Client.handle_response resp404 =
      Except.error (.apiRequestError ⟨"Not Found [404]", resp404⟩) ∧
    "Not Found [404]" = "Not Found " ++ "[404]" ∧
    resp404.status = 404 := by
  refine ⟨by decide, rfl, ?_, rfl, rfl⟩
  have h := C3_api_error_surfaced resp404 "Not Found" (by decide) rfl
  exact h.trans (by rfl)

/-- C4: for every paginated endpoint method — trades, account_history,
holds, orders, fills — and every pair of cursor arguments with both
`before` and `after` supplied, the call raises `ValueError` before any
network request is issued: the request log is empty. -/
theorem C4_both_cursors_rejected (before after : Option String)
    (hb : before.isSome = true) (ha : after.isSome = true) :
    (∀ c product_id limit now net,
        Client.trades c product_id limit before after now net =
          (Except.error cursorError, [])) ∧
    (∀ c account_id limit now net,
        Client.account_history c account_id limit before after now net =
          (Except.error cursorError, [])) ∧
    (∀ c account_id limit now net,
        Client.holds c account_id limit before after now net =
          (Except.error cursorError, [])) ∧
    (∀ c status product_id limit now net,
        Client.orders c status product_id limit before after now net =
          (Except.error cursorError, [])) ∧
    (∀ c order_id product_id limit now net,
        Client.fills c order_id product_id limit before after now net =
          (Except.error cursorError, [])) := by
  refine ⟨?_, ?_, ?_, ?_, ?_⟩ <;> intros <;>
    simp [Client.trades, Client.account_history, Client.holds,
      Client.orders, Client.fills, hb, ha]

/-- C4 witness: concrete calls of two of the methods with both cursors
set fail without a request ever reaching the network. -/
theorem C4_witness :
    (some "2" : Option String).isSome = true ∧
    (some "3" : Option String).isSome = true ∧
    Client.trades sampleClient "BTC-USD" 100 (some "2") (some "3")
      ⟨"1.0", false⟩ (fun _ => resp404) = (Except.error cursorError, []) ∧
    Client.fills sampleClient "oid" "" 100 (some "2") (some "3")
      ⟨"1.0", false⟩ (fun _ => resp404) = (Except.error cursorError, []) := by
  refine ⟨rfl, rfl, ?_, ?_⟩
  · exact (C4_both_cursors_rejected (some "2") (some "3") rfl rfl).1
      sampleClient "BTC-USD" 100 _ _
  · exact (C4_both_cursors_rejected (some "2") (some "3") rfl rfl).2.2.2.2
      sampleClient "oid" "" 100 _ _

/-- A representative successful page response: `cb-after: "100"`, no
`cb-before`. -/
def respPage : Response := ⟨200, [("cb-after", "100")], .list []⟩

/-- C5: every successful response (status < 400, header names pairwise
distinct) to a legally-cursored `trades` call yields a 3-tuple whose
second element is the value of the `cb-before` response header and whose
third is the value of `cb-after`, an absent header becoming `none` rather
than an error. -/
theorem C5_cursor_headers_returned (c : RestClient) (product_id : String)
    (limit : Nat) (before after : Option String) (now : PyFloat)
    (resp : Response)
    (hcur : ¬(before.isSome ∧ after.isSome))
    (hok : resp.status < 400)
    (hnodup : (resp.headers.map Prod.fst).Nodup) :
    Client.trades c product_id limit before after now (fun _ => resp) =
      (Except.ok (resp.body, List.lookup "cb-before" resp.headers,
        List.lookup "cb-after" resp.headers),
       [⟨"/products/" ++ product_id ++ "/trades",
         cursorParams [("limit", toString limit)] before after, HEADERS⟩]) := by
  simp [Client.trades, hcur, pageTail, Client.get_via, Client.handle_response,
    Client.request, Nat.not_le.mpr hok, pyDictOf_eq_self _ hnodup,
    pyDictGet_eq_lookup]

/-- C5 witness: a mocked response with header `cb-after: "100"` and no
`cb-before` makes `trades` return `(items, None, "100")`. -/
theorem C5_witness :
    ¬((none : Option String).isSome ∧ (none : Option String).isSome) ∧
    respPage.status < 400 ∧
    (respPage.headers.map Prod.fst).Nodup ∧
    Client.trades sampleClient "BTC-USD" 100 none none ⟨"1.0", false⟩
        (fun _ => respPage) =
      (Except.ok (PyObj.list [], none, some "100"),
       [⟨"/products/BTC-USD/trades", [("limit", "100")], HEADERS⟩]) := by
  refine ⟨by decide, by decide, by decide, ?_⟩
  have h := C5_cursor_headers_returned sampleClient "BTC-USD" 100 none none
    ⟨"1.0", false⟩ respPage (by decide) (by decide) (by decide)
  exact h.trans (by rfl)

/-- C6 (amended): on success the dispatch returns the response's header
pairs converted with `dict(...)` — a plain dict keyed by the exact
original header names.  Lookup on it is case-sensitive: it finds a value
exactly when a header with that exact name is present, so a header stored
under a different casing is not found by the lowercase name. -/
theorem C6_headers_dict_case_sensitive (resp : Response) (k v : String)
    (hok : resp.status < 400)
    (hnodup : (resp.headers.map Prod.fst).Nodup) :
    Client.handle_response resp = Except.ok (resp.headers, resp.body) ∧
    (pyDictGet resp.headers k = some v ↔ (k, v) ∈ resp.headers) := by
  constructor
  · simp [Client.handle_response, Client.request, Nat.not_le.mpr hok,
      pyDictOf_eq_self _ hnodup]
  · exact pyDictGet_some_iff_mem _ _ _ hnodup

/-- C6 counterexample: a success response carrying the cursor header as
`CB-BEFORE` — present case-insensitively, as the header multidict's own
lookup confirms — comes back from the dispatch as a plain dict on which
the lowercase lookup `headers.get('cb-before')` yields `none`, not the
header's value: case-insensitive access does not survive `dict(...)`. -/
theorem C6_counterexample :
    resultHeaderLookup
      (Client.handle_response ⟨200, [("CB-BEFORE", "42")], .list []⟩)
      "cb-before" = none ∧
    ciLookup [("CB-BEFORE", "42")] "cb-before" = some "42" ∧
    Client.handle_response ⟨200, [("CB-BEFORE", "42")], .list []⟩ =
      Except.ok ([("CB-BEFORE", "42")], .list []) := by
  exact ⟨rfl, rfl, rfl⟩

/-- C6 witness: the amended statement at the sample page response. -/
theorem C6_witness :
    respPage.status < 400 ∧
    (respPage.headers.map Prod.fst).Nodup ∧
    (Client.handle_response respPage =
        Except.ok (respPage.headers, respPage.body) ∧
      (pyDictGet respPage.headers "cb-after" = some "100" ↔
        ("cb-after", "100") ∈ respPage.headers)) := by
  exact ⟨by decide, by decide,
    C6_headers_dict_case_sensitive respPage "cb-after" "100"
      (by decide) (by decide)⟩

/-- C7: a channel name outside the fixed enumeration — and likewise any
name paired with an empty symbol collection — makes `Channel.__init__`
raise `ValueError`, so no Channel value is produced and no registry can
gain an entry from the call. -/
theorem C7_channel_validation (name : String) (ids : List String)
    (h : pyLower name ∉ validChannelNames ∨ ids = []) :
    ∃ msg, Channel.init name ids = Except.error (.valueError msg) := by
  by_cases hc : pyLower name ∈ validChannelNames
  · rcases h with h | h
    · exact absurd hc h
    · subst h
      exact ⟨"must include at least one product id", by simp [Channel.init, hc]⟩
  · exact ⟨"invalid name " ++ name, by simp [Channel.init, hc]⟩

/-- C7 witness: `Channel("bogus", ["BTC-USD"])` and
`Channel("ticker", [])` both fail with `ValueError`. -/
theorem C7_witness :
    (pyLower "bogus" ∉ validChannelNames ∨
      (["BTC-USD"] : List String) = []) ∧
    (∃ msg, Channel.init "bogus" ["BTC-USD"] =
      Except.error (.valueError msg)) ∧
    (pyLower "ticker" ∉ validChannelNames ∨
      ([] : List String) = []) ∧
    (∃ msg, Channel.init "ticker" [] = Except.error (.valueError msg)) := by
  refine ⟨Or.inl (by decide), ?_, Or.inr rfl, ?_⟩
  · exact C7_channel_validation "bogus" ["BTC-USD"] (Or.inl (by decide))
  · exact C7_channel_validation "ticker" [] (Or.inr rfl)

/-- C8 evaluated at the failing input: constructing the feed client with
two `ticker` channels leaves the `channels` registry empty and keeps both
Channel objects verbatim in the initial-channels list — no single merged
`ticker` entry with the union `{BTC-USD, ETH-USD}` of the symbol sets
exists anywhere in the resulting state. -/
theorem C8_no_merge_on_init :
    Channel.init "ticker" ["BTC-USD"] =
      Except.ok ⟨"ticker", (["BTC-USD"] : List String).toFinset⟩ ∧
    Channel.init "ticker" ["ETH-USD"] =
      Except.ok ⟨"ticker", (["ETH-USD"] : List String).toFinset⟩ ∧
    (WsClient.init [⟨"ticker", (["BTC-USD"] : List String).toFinset⟩,
        ⟨"ticker", (["ETH-USD"] : List String).toFinset⟩]).channels = [] ∧
    (WsClient.init [⟨"ticker", (["BTC-USD"] : List String).toFinset⟩,
        ⟨"ticker", (["ETH-USD"] : List String).toFinset⟩]).initial_channels =
      [⟨"ticker", (["BTC-USD"] : List String).toFinset⟩,
       ⟨"ticker", (["ETH-USD"] : List String).toFinset⟩] ∧
    (["BTC-USD"] : List String).toFinset ≠
      ({"BTC-USD", "ETH-USD"} : Finset String) ∧
    (["ETH-USD"] : List String).toFinset ≠
      ({"BTC-USD", "ETH-USD"} : Finset String) := by
  exact ⟨rfl, rfl, rfl, rfl, by decide, by decide⟩

/-- C9 evaluated at the failing input: when the opening handshake
completes on a client constructed with a heartbeat channel,
`ClientProtocol.onOpen` forwards to `Client.on_open`, which transmits no
frame at all — the registry snapshot is never serialized into a
subscription control frame, although the snapshot is non-empty. -/
theorem C9_on_open_transmits_nothing :
    Channel.init "heartbeat" ["BTC-USD"] =
      Except.ok ⟨"heartbeat", (["BTC-USD"] : List String).toFinset⟩ ∧
    ClientProtocol.onOpen_frames
      (WsClient.init [⟨"heartbeat", (["BTC-USD"] : List String).toFinset⟩]) =
      [] ∧
    (WsClient.init
      [⟨"heartbeat", (["BTC-USD"] : List String).toFinset⟩]).initial_channels
      ≠ [] := by
  exact ⟨rfl, rfl, by simp [WsClient.init]⟩

/-- C10: channel-name matching is case-insensitive at the public
interface: any name whose lowercased form is recognized, together with a
non-empty product id list, constructs successfully and stores the
lowercased form as the channel's name — so case variants of one name
yield Channels with the same merge key. -/
theorem C10_channel_name_lowercased (name : String) (ids : List String)
    (hname : pyLower name ∈ validChannelNames)
    (hids : ids ≠ []) :
    Channel.init name ids = Except.ok ⟨pyLower name, ids.toFinset⟩ ∧
    ∀ name2 ids2, pyLower name2 = pyLower name → ids2 ≠ [] →
      ∃ ch2, Channel.init name2 ids2 = Except.ok ch2 ∧
        ch2.name = pyLower name := by
  constructor
  · simp [Channel.init, hname, hids]
  · intro name2 ids2 heq hids2
    have hname2 : pyLower name2 ∈ validChannelNames := by
      rw [heq]; exact hname
    exact ⟨⟨pyLower name2, ids2.toFinset⟩,
      by simp [Channel.init, hname2, hids2], heq⟩

/-- C10 witness: `Channel("TICKER", "BTC-USD")` succeeds and stores the
name `"ticker"`. -/
theorem C10_witness :
    pyLower "TICKER" ∈ validChannelNames ∧
    (["BTC-USD"] : List String) ≠ [] ∧
    Channel.init "TICKER" ["BTC-USD"] =
      Except.ok ⟨pyLower "TICKER", (["BTC-USD"] : List String).toFinset⟩ ∧
    pyLower "TICKER" = "ticker" := by
  refine ⟨by decide, by simp, ?_, by decide⟩
  exact (C10_channel_name_lowercased "TICKER" ["BTC-USD"]
    (by decide) (by simp)).1

end Copra
